import Mathlib

/-!
Shallow embedding of `src/ise_efficient_frontier/efficientfrontier.py`.

Vectors (numpy 1-D arrays) are modelled as `Fin n → ℚ`, matrices (numpy 2-D
arrays) as `Fin n → Fin k → ℚ`.  Real arithmetic is modelled over `ℚ`; note
that Lean's `ℚ` division is totalized with `x / 0 = 0`, while IEEE floats
give `0.0 / 0.0 = NaN` and `c / 0.0 = ±inf` — in both semantics `0 / 0 ≠ 1`
and `x / x = 1` for nonzero finite `x`, which is what the theorems below use.

`scipy.optimize.minimize` is opaque third-party code; it is modelled as an
abstract `solver` argument mapping the argument record handed to it (the
objective, bounds, constraints and initial guess, collected in
`MinimizeCall`) to an `OptimizeResult` carrying the iterate `x` and the
`success` flag.  The python function `_minimize_objective` then is the
composite: build the call, run the solver, project out `.x`.
-/

namespace EfficientFrontier

/-- Sum of a python/numpy 1-D array, as in `sum(w)`. -/
def np_sum {n : ℕ} (w : Fin n → ℚ) : ℚ := ∑ i, w i

/-- One-dimensional `np.dot(x, y)` (also `np.matmul` of two 1-D arrays). -/
def np_dot {n : ℕ} (x y : Fin n → ℚ) : ℚ := ∑ i, x i * y i

/-- The product `np.matmul(x.T, M)` of a 1-D array `x` with a 2-D array `M`
(for a 1-D numpy array, `x.T` is `x` itself): entry `j` is `∑ i, x i * M i j`. -/
def np_vecmatmul {n k : ℕ} (x : Fin n → ℚ) (M : Fin n → Fin k → ℚ) : Fin k → ℚ :=
  fun j => ∑ i, x i * M i j

/-- The `'type'` key of a scipy constraint dict (`'eq'` or `'ineq'`). -/
inductive ConstraintType where
  | eq
  | ineq
deriving DecidableEq

/-- One scipy constraint dict `{'type': ..., 'fun': ...}` for weight vectors
of length `n`. -/
structure ConstraintSpec (n : ℕ) where
  ctype : ConstraintType
  cfun : (Fin n → ℚ) → ℚ

/-- The argument record that `_minimize_objective` hands to
`scipy.optimize.minimize`: objective `fun`, `bounds`, `constraints`, and the
initial guess `x0`. -/
structure MinimizeCall where
  n_securities : ℕ
  objective : (Fin n_securities → ℚ) → ℚ
  x0 : Fin n_securities → ℚ
  bounds : List (ℚ × ℚ)
  constraints : List (ConstraintSpec n_securities)

/-- The fields of `scipy.optimize.OptimizeResult` that the library's contract
can observe: the final iterate `x` and the convergence flag `success`. -/
structure OptimizeResult (n : ℕ) where
  x : Fin n → ℚ
  success : Bool

/-- The in-place self-division `x0 /= x0` of line 19, entrywise `x i / x i`. -/
def selfdiv {n : ℕ} (x : Fin n → ℚ) : Fin n → ℚ := fun i => x i / x i

/-- Default value of the `non_negative_weights` parameter of
`_minimize_objective` (line 7: `non_negative_weights: bool = True`). -/
def non_negative_weights_default : Bool := true

/-- The argument record that `_minimize_objective` builds (lines 18-24):
`x0` is the self-divided random draw, `bounds` is
`[[0. if non_negative_weights else -1., 1.] for _ in range(n_securities)]`,
and `constraints` is `[{'type': 'eq', 'fun': lambda w: 1-sum(w)}]`.
The random draw `np.random.random(size=n_securities)` is passed in as the
parameter `draw`. -/
def minimize_objective_call (n_securities : ℕ) (objective : (Fin n_securities → ℚ) → ℚ)
    (non_negative_weights : Bool) (draw : Fin n_securities → ℚ) : MinimizeCall where
  n_securities := n_securities
  objective := objective
  x0 := selfdiv draw
  bounds := (List.range n_securities).map
    (fun _ => ((if non_negative_weights then (0 : ℚ) else -1), (1 : ℚ)))
  constraints := [⟨ConstraintType.eq, fun w => 1 - np_sum w⟩]

/-- `_minimize_objective` (lines 6-25): build the call, run the solver, and
return the `.x` field of the result (line 25) — nothing else of the result is
inspected. -/
def minimize_objective (n_securities : ℕ) (objective : (Fin n_securities → ℚ) → ℚ)
    (non_negative_weights : Bool) (draw : Fin n_securities → ℚ)
    (solver : (c : MinimizeCall) → OptimizeResult c.n_securities) : Fin n_securities → ℚ :=
  (solver (minimize_objective_call n_securities objective non_negative_weights draw)).x

/-- The objective lambda of `min_risk` (line 38):
`lambda x: np.matmul(np.matmul(x.T, covariance), x)`. -/
def min_risk_objective {n : ℕ} (covariance : Fin n → Fin n → ℚ) : (Fin n → ℚ) → ℚ :=
  fun x => np_dot (np_vecmatmul x covariance) x

/-- The objective lambda of `max_sharpe` (line 52):
`lambda x: -np.dot(x, expected_returns) / np.matmul(np.matmul(x.T, covariance), x)`. -/
def max_sharpe_objective {n : ℕ} (expected_returns : Fin n → ℚ)
    (covariance : Fin n → Fin n → ℚ) : (Fin n → ℚ) → ℚ :=
  fun x => -(np_dot x expected_returns) / np_dot (np_vecmatmul x covariance) x

/-- The argument record produced by `min_risk expected_returns covariance`
(line 39): objective as above, security count `covariance.shape[0]` (the row
count `n` of the matrix type), and the defaulted `non_negative_weights`.
`expected_returns` may have any length `m`; the python code never checks it. -/
def min_risk_call {m n : ℕ} (expected_returns : Fin m → ℚ) (covariance : Fin n → Fin n → ℚ)
    (draw : Fin n → ℚ) : MinimizeCall :=
  minimize_objective_call n (min_risk_objective covariance) non_negative_weights_default draw

/-- `min_risk` (lines 28-39). -/
def min_risk {m n : ℕ} (expected_returns : Fin m → ℚ) (covariance : Fin n → Fin n → ℚ)
    (draw : Fin n → ℚ) (solver : (c : MinimizeCall) → OptimizeResult c.n_securities) :
    Fin n → ℚ :=
  minimize_objective n (min_risk_objective covariance) non_negative_weights_default draw solver

/-- The argument record produced by `max_sharpe expected_returns covariance`
(line 53). `np.dot(x, expected_returns)` requires the returns length to equal
the weight length, so here `expected_returns : Fin n → ℚ`. -/
def max_sharpe_call {n : ℕ} (expected_returns : Fin n → ℚ) (covariance : Fin n → Fin n → ℚ)
    (draw : Fin n → ℚ) : MinimizeCall :=
  minimize_objective_call n (max_sharpe_objective expected_returns covariance)
    non_negative_weights_default draw

/-- `max_sharpe` (lines 42-53). -/
def max_sharpe {n : ℕ} (expected_returns : Fin n → ℚ) (covariance : Fin n → Fin n → ℚ)
    (draw : Fin n → ℚ) (solver : (c : MinimizeCall) → OptimizeResult c.n_securities) :
    Fin n → ℚ :=
  minimize_objective n (max_sharpe_objective expected_returns covariance)
    non_negative_weights_default draw solver

/-- Unfolding lemma: the quadratic form computed by
`np.matmul(np.matmul(x.T, covariance), x)` is the double sum
`∑ i, ∑ j, w i * covariance i j * w j`, i.e. the portfolio variance `wᵀΣw`. -/
theorem np_quadratic_form {n : ℕ} (covariance : Fin n → Fin n → ℚ) (w : Fin n → ℚ) :
    np_dot (np_vecmatmul w covariance) w = ∑ i, ∑ j, w i * covariance i j * w j := by
  simp only [np_dot, np_vecmatmul, Finset.sum_mul]
  exact Finset.sum_comm

/-- C1: for every covariance matrix, the objective that `min_risk` passes to
`_minimize_objective` computes the portfolio variance `wᵀΣw` at every weight
vector, and the security count passed is the row count of the matrix. -/
theorem min_risk_passes_variance_objective {m n : ℕ} (expected_returns : Fin m → ℚ)
    (covariance : Fin n → Fin n → ℚ) (draw : Fin n → ℚ) :
    (∀ w : Fin n → ℚ, (min_risk_call expected_returns covariance draw).objective w
        = ∑ i, ∑ j, w i * covariance i j * w j)
    ∧ (min_risk_call expected_returns covariance draw).n_securities = n := by
  exact ⟨fun w => np_quadratic_form covariance w, rfl⟩

/-- C2: for every expected-returns vector and covariance matrix, the objective
that `max_sharpe` passes to `_minimize_objective` computes the negative
Sharpe-like ratio `-(w · r) / (wᵀΣw)` at every weight vector. -/
theorem max_sharpe_passes_neg_sharpe_objective {n : ℕ} (expected_returns : Fin n → ℚ)
    (covariance : Fin n → Fin n → ℚ) (draw : Fin n → ℚ) :
    ∀ w : Fin n → ℚ, (max_sharpe_call expected_returns covariance draw).objective w
        = -(∑ i, w i * expected_returns i) / (∑ i, ∑ j, w i * covariance i j * w j) := by
  intro w
  show -(np_dot w expected_returns) / np_dot (np_vecmatmul w covariance) w = _
  rw [np_quadratic_form]
  rfl

/-- C3: every call built by `_minimize_objective` carries exactly one
constraint, it is declared as an equality constraint, its function is
`w ↦ 1 - sum(w)`, and that function vanishes exactly when the weights sum
to 1. -/
theorem minimize_objective_sum_to_one_constraint (n : ℕ)
    (objective : (Fin n → ℚ) → ℚ) (non_negative_weights : Bool)
    (draw : Fin n → ℚ) (w : Fin n → ℚ) :
    ((minimize_objective_call n objective non_negative_weights draw).constraints.length = 1)
    ∧ ((minimize_objective_call n objective non_negative_weights draw).constraints.map
        ConstraintSpec.ctype = [ConstraintType.eq])
    ∧ ((minimize_objective_call n objective non_negative_weights draw).constraints.map
        (fun c => c.cfun w) = [1 - np_sum w])
    ∧ (1 - np_sum w = 0 ↔ np_sum w = 1) := by
  refine ⟨rfl, rfl, rfl, ?_⟩
  rw [sub_eq_zero]
  exact eq_comm

/-- Unfolding lemma: the bounds list built on line 22 is `n_securities` copies
of the pair `(0, 1)` or `(-1, 1)` according to the flag. -/
theorem bounds_replicate (n : ℕ) (objective : (Fin n → ℚ) → ℚ)
    (non_negative_weights : Bool) (draw : Fin n → ℚ) :
    (minimize_objective_call n objective non_negative_weights draw).bounds
      = List.replicate n ((if non_negative_weights then (0 : ℚ) else -1), (1 : ℚ)) := by
  show (List.range n).map _ = _
  rw [List.map_const']
  rw [List.length_range]

/-- C4: the bounds handed to the solver form a list of exactly `n_securities`
pairs, each equal to `(0, 1)` when negative weights are disallowed and to
`(-1, 1)` when they are allowed. -/
theorem minimize_objective_bounds (n : ℕ) (objective : (Fin n → ℚ) → ℚ)
    (non_negative_weights : Bool) (draw : Fin n → ℚ) :
    ((minimize_objective_call n objective non_negative_weights draw).bounds
      = List.replicate n ((if non_negative_weights then (0 : ℚ) else -1), (1 : ℚ)))
    ∧ ((minimize_objective_call n objective non_negative_weights draw).bounds.length = n) := by
  refine ⟨bounds_replicate n objective non_negative_weights draw, ?_⟩
  rw [bounds_replicate n objective non_negative_weights draw, List.length_replicate]

/-- C5: neither `min_risk` nor `max_sharpe` validates dimensions.  Evaluated
at the failing input `expected_returns = [1, 2, 3]` (length 3) against the
2×2 identity covariance matrix, `min_risk` proceeds with security count 2 —
taken from `covariance.shape[0]` alone — and hands the solver's length-2
iterate back as the result, instead of raising an invalid-input error. -/
theorem min_risk_silent_dimension_mismatch :
    ((min_risk_call ![(1 : ℚ), 2, 3] (fun i j : Fin 2 => if i = j then (1 : ℚ) else 0)
        ![(1 : ℚ)/2, 1/2]).n_securities = 2)
    ∧ (min_risk ![(1 : ℚ), 2, 3] (fun i j : Fin 2 => if i = j then (1 : ℚ) else 0)
        ![(1 : ℚ)/2, 1/2] (fun c => ⟨fun _ => 1/2, true⟩) = fun _ => 1/2) :=
  ⟨rfl, rfl⟩

/-- A solver that reports convergence (`success = True`) with final iterate
all-halves. -/
def solver_converged : (c : MinimizeCall) → OptimizeResult c.n_securities :=
  fun _ => ⟨fun _ => 1/2, true⟩

/-- A solver that reports failure (`success = False`) yet carries the very
same final iterate as `solver_converged`. -/
def solver_diverged : (c : MinimizeCall) → OptimizeResult c.n_securities :=
  fun _ => ⟨fun _ => 1/2, false⟩

/-- C6 counterexample: `_minimize_objective` returns only the `.x` field of
the scipy result (line 25), so a run whose solver reports `success = False`
returns a value identical to that of a successful run — the failure is not
distinguishable from success in anything the caller receives. -/
theorem solver_failure_indistinguishable :
    ((solver_converged (min_risk_call ![(1 : ℚ)] ![![(1 : ℚ)]] ![(1 : ℚ)])).success = true)
    ∧ ((solver_diverged (min_risk_call ![(1 : ℚ)] ![![(1 : ℚ)]] ![(1 : ℚ)])).success = false)
    ∧ (min_risk ![(1 : ℚ)] ![![(1 : ℚ)]] ![(1 : ℚ)] solver_converged
        = min_risk ![(1 : ℚ)] ![![(1 : ℚ)]] ![(1 : ℚ)] solver_diverged) :=
  ⟨rfl, rfl, rfl⟩

/-- C6 amended: for every solver outcome, `_minimize_objective` returns the
result's final iterate `.x` unconditionally; the `success` flag is discarded,
so non-convergence is not surfaced to the caller. -/
theorem minimize_objective_returns_final_iterate (n : ℕ)
    (objective : (Fin n → ℚ) → ℚ) (non_negative_weights : Bool) (draw : Fin n → ℚ)
    (solver : (c : MinimizeCall) → OptimizeResult c.n_securities) :
    minimize_objective n objective non_negative_weights draw solver
      = (solver (minimize_objective_call n objective non_negative_weights draw)).x :=
  rfl

/-- C7: at the zero-variance failing input `w = [1]`, `Σ = [[0]]`,
`r = [1]` — a feasible point, the weights sum to 1 — the divisor
`wᵀΣw` of the `max_sharpe` objective is `0`, and the objective is the bare
quotient `-(w · r) / 0` with no guard on the divisor. -/
theorem max_sharpe_zero_variance_unguarded :
    (np_dot (np_vecmatmul ![(1 : ℚ)] ![![(0 : ℚ)]]) ![(1 : ℚ)] = 0)
    ∧ (np_sum ![(1 : ℚ)] = 1)
    ∧ (max_sharpe_objective ![(1 : ℚ)] ![![(0 : ℚ)]] ![(1 : ℚ)]
        = -(np_dot ![(1 : ℚ)] ![(1 : ℚ)]) / 0) := by
  have h0 : np_dot (np_vecmatmul ![(1 : ℚ)] ![![(0 : ℚ)]]) ![(1 : ℚ)] = 0 := by
    simp [np_dot, np_vecmatmul]
  refine ⟨h0, by simp [np_sum], ?_⟩
  show -(np_dot ![(1 : ℚ)] ![(1 : ℚ)]) / np_dot (np_vecmatmul ![(1 : ℚ)] ![![(0 : ℚ)]]) ![(1 : ℚ)]
      = _
  rw [h0]

/-- C8 counterexample: `np.random.random` draws from `[0, 1)`, and `0` lies
in `[0, 1)`; for the draw `[0.]` the self-divided initial guess `x0 /= x0`
is not the all-ones vector (the entry is `0/0`, which is `NaN` in IEEE
arithmetic and `0` in this totalized model — in either case not `1`). -/
theorem x0_zero_draw_not_ones :
    ((0 : ℚ) ∈ Set.Ico (0 : ℚ) 1)
    ∧ ((minimize_objective_call 1 (fun _ => 0) true (fun _ : Fin 1 => (0 : ℚ))).x0
        ≠ fun _ : Fin 1 => (1 : ℚ)) := by
  refine ⟨⟨le_refl 0, one_pos⟩, ?_⟩
  intro h
  have h0 := congrFun h (0 : Fin 1)
  simp [minimize_objective_call, selfdiv] at h0

/-- C8 amended: for every random draw all of whose entries are nonzero (in
particular any draw from the open interval `(0, 1)`), the initial guess
obtained by the self-division `x0 /= x0` is the all-ones vector. -/
theorem x0_all_ones_of_nonzero_draw {n : ℕ} (objective : (Fin n → ℚ) → ℚ)
    (non_negative_weights : Bool) (draw : Fin n → ℚ) (h : ∀ i, draw i ≠ 0) :
    (minimize_objective_call n objective non_negative_weights draw).x0 = fun _ => 1 := by
  funext i
  show selfdiv draw i = 1
  exact div_self (h i)

/-- Witness for the amended C8, at the concrete two-entry draw `[1/2, 1/2]`. -/
theorem x0_all_ones_of_nonzero_draw_witness :
    (minimize_objective_call 2 (fun _ => 0) true (fun _ : Fin 2 => (1 : ℚ)/2)).x0
      = fun _ => 1 :=
  x0_all_ones_of_nonzero_draw (fun _ => 0) true (fun _ : Fin 2 => (1 : ℚ)/2)
    (fun _ => by norm_num)

/-- C9: `min_risk` never reads `expected_returns`: two calls differing only
in the expected-returns argument (even in its length) build identical solver
calls — same objective at every weight vector, same security count — and
return identical results under every solver. -/
theorem min_risk_independent_of_returns {m₁ m₂ n : ℕ}
    (r₁ : Fin m₁ → ℚ) (r₂ : Fin m₂ → ℚ) (covariance : Fin n → Fin n → ℚ)
    (draw : Fin n → ℚ) (solver : (c : MinimizeCall) → OptimizeResult c.n_securities) :
    (min_risk_call r₁ covariance draw = min_risk_call r₂ covariance draw)
    ∧ (∀ w : Fin n → ℚ, (min_risk_call r₁ covariance draw).objective w
        = (min_risk_call r₂ covariance draw).objective w)
    ∧ ((min_risk_call r₁ covariance draw).n_securities
        = (min_risk_call r₂ covariance draw).n_securities)
    ∧ (min_risk r₁ covariance draw solver = min_risk r₂ covariance draw solver) :=
  ⟨rfl, fun _ => rfl, rfl, rfl⟩

/-- C10: `non_negative_weights` defaults to `True`, both public functions
invoke `_minimize_objective` with that default, and therefore every call
built through the public API carries the `[0, 1]` per-weight bounds. -/
theorem public_api_non_negative_bounds {m n : ℕ} (expected_returns : Fin m → ℚ)
    (expected_returns' : Fin n → ℚ) (covariance : Fin n → Fin n → ℚ) (draw : Fin n → ℚ) :
    (non_negative_weights_default = true)
    ∧ ((min_risk_call expected_returns covariance draw).bounds
        = List.replicate n ((0 : ℚ), (1 : ℚ)))
    ∧ ((max_sharpe_call expected_returns' covariance draw).bounds
        = List.replicate n ((0 : ℚ), (1 : ℚ))) := by
  refine ⟨rfl, ?_, ?_⟩
  · simpa using bounds_replicate n (min_risk_objective covariance)
      non_negative_weights_default draw
  · simpa using bounds_replicate n (max_sharpe_objective expected_returns' covariance)
      non_negative_weights_default draw

end EfficientFrontier
